import Mathlib

/-!
Shallow embedding of the client-side analysis queue and rate limiting of
the video.gacho repository.

Embedded source files:
  * `src/lib/utils/rateLimitQueue.ts` — the `VideoAnalysisQueue` class
    (queue state, start/stop/retry operations, the dispatch loop
    `processNext`, error handling `handleProcessingError`, persistence
    `saveToStorage` / `loadFromStorage`).
  * `src/app/api/gemini/analyze-video/route.ts` — the server-side sliding
    window rate limiter `checkRateLimit` and the 429 error message.

Timestamps are modelled as `Int` milliseconds (JavaScript `Date.now()`).
JavaScript numbers that only ever hold integer values are modelled as
`Int` (or `Nat` where the source only ever counts up from zero).
The asynchronous body of `processNext` is split at its single `await`
point: `processNextPre` is everything before the remote call resolves
(the guards, the rate-limit window check, popping the head item), and
`resolveSuccess` / `resolveFailure` are the two continuations that run
once the call settles.  Timer arming and result emission are reified as
an `Effect` value rather than performed, so that theorems can speak
about what one tick of the loop schedules and emits.
-/

namespace VideoGacho

/-- Analysis options toggles (`AnalysisOptions` in `types/video-analysis`). -/
structure AnalysisOptions where
  includeVisualHook : Bool
  includeTextHook : Bool
  includeVoiceHook : Bool
  includeVideoScript : Bool
  includePainPoint : Bool
deriving DecidableEq, Repr

/-- A browser `File` handle: metadata plus the binary payload.  The payload
bytes are what `saveToStorage` cannot serialize. -/
structure FileHandle where
  name : String
  size : Nat
  type : String
  content : List Nat
deriving DecidableEq, Repr

/-- The payload-less `{name, size, type}` record that `saveToStorage`
substitutes for the `File` object. -/
structure FileMeta where
  name : String
  size : Nat
  type : String
deriving DecidableEq, Repr

/-- `VideoAnalysisRequest` from `types/video-analysis`. -/
structure VideoAnalysisRequest where
  id : String
  filename : String
  videoFile : FileHandle
  analysisOptions : AnalysisOptions
  createdAt : Int
deriving DecidableEq, Repr

/-- `RateLimitInfo` from `types/video-analysis`: a point-in-time quota
snapshot. -/
structure RateLimitInfo where
  remaining : Int
  resetTime : Int
  requestsInLastMinute : Int
  maxRequestsPerMinute : Int
deriving DecidableEq, Repr

/-- One pending work item (`QueueItem` in `rateLimitQueue.ts`). -/
structure QueueItem where
  request : VideoAnalysisRequest
  retryCount : Nat
  maxRetries : Nat
  lastAttempt : Option Int
deriving DecidableEq, Repr

/-- The `statistics` sub-record of `QueueState`. -/
structure Statistics where
  totalProcessed : Nat
  successCount : Nat
  errorCount : Nat
  startTime : Option Int
deriving DecidableEq, Repr

/-- `QueueState` from `rateLimitQueue.ts`. -/
structure QueueState where
  items : List QueueItem
  isProcessing : Bool
  isPaused : Bool
  rateLimitInfo : RateLimitInfo
  statistics : Statistics
deriving DecidableEq, Repr

/-- Result status (`VideoAnalysisResult.status`). -/
inductive AnalysisStatus where
  | pending
  | processing
  | completed
  | error
deriving DecidableEq, Repr

/-- `VideoAnalysisResult` from `types/video-analysis`. -/
structure VideoAnalysisResult where
  id : String
  filename : String
  status : AnalysisStatus
  visualHook : Option String := none
  textHook : Option String := none
  voiceHook : Option String := none
  videoScript : Option String := none
  painPoint : Option String := none
  processingTime : Option Int := none
  error : Option String := none
  createdAt : Int
  completedAt : Option Int := none
deriving DecidableEq, Repr

/-- `QueueStatus` from `types/video-analysis`, as built by
`getQueueStatus`. -/
structure QueueStatus where
  position : Nat
  estimatedWaitTime : Int
  isProcessing : Bool
  isPaused : Bool
  totalInQueue : Nat
  completedCount : Nat
  errorCount : Nat
deriving DecidableEq, Repr

/-- `MAX_RETRIES` constant (`rateLimitQueue.ts` line 35). -/
def MAX_RETRIES : Nat := 3

/-- `RETRY_BACKOFF_BASE` constant, 2 seconds base delay in ms
(`rateLimitQueue.ts` line 36). -/
def RETRY_BACKOFF_BASE : Int := 2000

/-- `PROCESSING_DELAY` constant, 6 seconds between requests in ms
(`rateLimitQueue.ts` line 37). -/
def PROCESSING_DELAY : Int := 6000

/-- The analysis-queue state after `initializeState()`
(`rateLimitQueue.ts` lines 54-71).  `defaultLimit` stands for the
imported `DEFAULT_RATE_LIMIT_PER_MINUTE` constant and `now` for
`Date.now()`. -/
def initializeState (defaultLimit : Nat) (now : Int) : QueueState :=
  { items := []
    isProcessing := false
    isPaused := false
    rateLimitInfo :=
      { remaining := (defaultLimit : Int)
        resetTime := now + 60000
        requestsInLastMinute := 0
        maxRequestsPerMinute := (defaultLimit : Int) }
    statistics :=
      { totalProcessed := 0, successCount := 0, errorCount := 0,
        startTime := none } }

/-- `addToQueue(request)` (`rateLimitQueue.ts` lines 87-97). -/
def addToQueue (request : VideoAnalysisRequest) (s : QueueState) : QueueState :=
  { s with items := s.items ++
      [{ request := request, retryCount := 0, maxRetries := MAX_RETRIES,
         lastAttempt := none }] }

/-- `startProcessing()` (`rateLimitQueue.ts` lines 111-122).  The returned
`Bool` records whether a dispatch loop was initiated (the final
`this.processNext()` call); the early return when already processing skips
everything. -/
def startProcessing (now : Int) (s : QueueState) : QueueState × Bool :=
  if s.isProcessing then (s, false)
  else
    ({ s with isProcessing := true
              isPaused := false
              statistics := { s.statistics with startTime := some now } },
     true)

/-- `stopProcessing()` (`rateLimitQueue.ts` lines 141-147): clears the
processing flags (and, in the source, cancels any armed timers). -/
def stopProcessing (s : QueueState) : QueueState :=
  { s with isProcessing := false, isPaused := false }

/-- `getQueueStatus()` (`rateLimitQueue.ts` lines 176-190). -/
def getQueueStatus (s : QueueState) : QueueStatus :=
  let totalInQueue := s.items.length
  { position := if s.isProcessing then max 1 totalInQueue else 0
    estimatedWaitTime := (totalInQueue : Int) * (PROCESSING_DELAY / 1000)
    isProcessing := s.isProcessing
    isPaused := s.isPaused
    totalInQueue := totalInQueue
    completedCount := s.statistics.successCount
    errorCount := s.statistics.errorCount }

/-- Lower-casing of one ASCII character, as JavaScript
`String.prototype.toLowerCase` acts on the ASCII letters appearing in the
error messages of this code base. -/
def lowerChar (c : Char) : Char :=
  if 'A' ≤ c ∧ c ≤ 'Z' then Char.ofNat (c.toNat + 32) else c

/-- `errorMessage.toLowerCase()` as a character list. -/
def lowerStr (s : String) : List Char :=
  s.toList.map lowerChar

/-- Does `hay` start with `needle`? (helper for JavaScript
`String.prototype.includes`). -/
def startsWithList : List Char → List Char → Bool
  | _, [] => true
  | [], _ :: _ => false
  | a :: as, b :: bs => (a = b) && startsWithList as bs

/-- Does `hay` contain `needle` as a contiguous run? (JavaScript
`String.prototype.includes` on character lists). -/
def hasSubList : List Char → List Char → Bool
  | [], needle => startsWithList [] needle
  | c :: t, needle => startsWithList (c :: t) needle || hasSubList t needle

/-- The `retryableErrors` keyword table of `isRetryableError`
(`rateLimitQueue.ts` lines 333-340). -/
def retryableErrors : List String :=
  ["network", "timeout", "rate limit", "temporary", "service unavailable",
   "internal server error"]

/-- `isRetryableError(errorMessage)` (`rateLimitQueue.ts` lines 332-344):
keyword containment on the lower-cased message. -/
def isRetryableError (errorMessage : String) : Bool :=
  retryableErrors.any (fun e => hasSubList (lowerStr errorMessage) e.toList)

/-- The observable side actions of one tick of the dispatch loop: emitting
a terminal result to the result callback, scheduling the deferred
re-enqueue of a retried item (`setTimeout` in `handleProcessingError`),
arming the pacing timer (`this.processingTimer`), or arming the
rate-limit wait timer (`this.rateLimitTimer`).  Delays are in
milliseconds. -/
inductive Effect where
  | emitResult (r : VideoAnalysisResult)
  | scheduleRequeue (item : QueueItem) (delayMs : Int)
  | armProcessingTimer (delayMs : Int)
  | armRateLimitTimer (delayMs : Int)
deriving DecidableEq, Repr

/-- What `processNext` did before (or instead of) awaiting the remote
call: nothing, armed the rate-limit wait timer, or popped the head item
and issued the call. -/
inductive DispatchAction where
  | noDispatch
  | waitRateLimit (waitMs : Int)
  | dispatch (item : QueueItem)
deriving DecidableEq, Repr

/-- The rate-limit check at the top of `processNext()`
(`rateLimitQueue.ts` lines 211-223): when `remaining ≤ 0`, either report
the wait time until `resetTime` (the `rateLimitTimer` arm-and-return
path) or, when the window already expired, reset the local window. -/
def rateLimitGate (now : Int) (s : QueueState) : QueueState × Option Int :=
  if s.rateLimitInfo.remaining ≤ 0 then
    if s.rateLimitInfo.resetTime - now > 0 then
      (s, some (s.rateLimitInfo.resetTime - now))
    else
      ({ s with rateLimitInfo :=
          { s.rateLimitInfo with
              remaining := s.rateLimitInfo.maxRequestsPerMinute
              resetTime := now + 60000
              requestsInLastMinute := 0 } }, none)
  else (s, none)

/-- The part of `processNext()` before the `await`
(`rateLimitQueue.ts` lines 201-228): the not-running / paused / empty
guards with the empty-queue auto-stop, the rate-limit check
(`rateLimitGate`) with either timer arming or local window reset, and
popping the head item (marking its `lastAttempt`). -/
def processNextPre (now : Int) (s : QueueState) : QueueState × DispatchAction :=
  if !s.isProcessing || s.isPaused || s.items.length = 0 then
    if s.items.length = 0 && s.isProcessing then (stopProcessing s, .noDispatch)
    else (s, .noDispatch)
  else
    match rateLimitGate now s with
    | (s1, some waitTime) => (s1, .waitRateLimit waitTime)
    | (s1, none) =>
      match s1.items with
      | [] => (s1, .noDispatch)
      | item :: rest =>
        ({ s1 with items := rest },
         .dispatch { item with lastAttempt := some now })

/-- Overwriting `this.state.rateLimitInfo` with the snapshot carried by
the API response, when present (`processVideoAnalysis`,
`rateLimitQueue.ts` lines 267-271). -/
def applySnapshot (s : QueueState) (snap : Option RateLimitInfo) : QueueState :=
  match snap with
  | none => s
  | some info => { s with rateLimitInfo := info }

/-- The payload of a successful API response (`apiResponse.data`). -/
structure ApiAnalysisData where
  visualHook : String
  textHook : String
  voiceHook : String
  videoScript : String
  painPoint : String
  processingTime : Int
deriving DecidableEq, Repr

/-- How the awaited remote call in `processNext` settles: a successful
typed response (with optional authoritative rate-limit snapshot), or a
failure — either a typed `success:false` response (whose snapshot is
still applied before the `throw`) or a thrown transport error (no
snapshot, `snap = none`).  Either failure form reaches the `catch` block
as an error whose message is `msg`. -/
inductive CallOutcome where
  | success (snap : Option RateLimitInfo) (data : ApiAnalysisData)
  | failure (msg : String) (snap : Option RateLimitInfo)
deriving DecidableEq, Repr

/-- The success continuation of `processNext`
(`rateLimitQueue.ts` lines 231-244 together with the snapshot
application inside `processVideoAnalysis`): bump success statistics,
decrement the local window clamped at zero, and emit the completed
result built by `processVideoAnalysis` (lines 278-290). -/
def resolveSuccess (now : Int) (s : QueueState) (item : QueueItem)
    (snap : Option RateLimitInfo) (data : ApiAnalysisData) :
    QueueState × Effect :=
  let s := applySnapshot s snap
  let s :=
    { s with
        statistics :=
          { s.statistics with
              successCount := s.statistics.successCount + 1
              totalProcessed := s.statistics.totalProcessed + 1 }
        rateLimitInfo :=
          { s.rateLimitInfo with
              remaining := max 0 (s.rateLimitInfo.remaining - 1)
              requestsInLastMinute :=
                s.rateLimitInfo.requestsInLastMinute + 1 } }
  (s, .emitResult
    { id := item.request.id
      filename := item.request.filename
      status := .completed
      visualHook := some data.visualHook
      textHook := some data.textHook
      voiceHook := some data.voiceHook
      videoScript := some data.videoScript
      painPoint := some data.painPoint
      processingTime := some data.processingTime
      createdAt := item.request.createdAt
      completedAt := some now })

/-- `handleProcessingError(item, error)` (`rateLimitQueue.ts` lines
295-330): increment the retry count of the item; if the message is retryable
and the count is still below `maxRetries`, schedule the head re-enqueue
after the exponential backoff `RETRY_BACKOFF_BASE * 2^(retryCount-1)`;
otherwise count a permanent failure and emit the error result. -/
def handleProcessingError (now : Int) (s : QueueState) (item : QueueItem)
    (errorMessage : String) : QueueState × Effect :=
  let item := { item with retryCount := item.retryCount + 1 }
  if isRetryableError errorMessage && decide (item.retryCount < item.maxRetries) then
    (s, .scheduleRequeue item (RETRY_BACKOFF_BASE * 2 ^ (item.retryCount - 1)))
  else
    ({ s with
        statistics :=
          { s.statistics with
              errorCount := s.statistics.errorCount + 1
              totalProcessed := s.statistics.totalProcessed + 1 } },
     .emitResult
       { id := item.request.id
         filename := item.request.filename
         status := .error
         error := some errorMessage
         createdAt := item.request.createdAt
         completedAt := some now })

/-- The failure continuation of `processNext`: the snapshot (if the
failure was a typed API response) was applied inside
`processVideoAnalysis` before the `throw`, then the `catch` block runs
`handleProcessingError`. -/
def resolveFailure (now : Int) (s : QueueState) (item : QueueItem)
    (msg : String) (snap : Option RateLimitInfo) : QueueState × Effect :=
  handleProcessingError now (applySnapshot s snap) item msg

/-- The deferred body of the `setTimeout` in `handleProcessingError`
(`rateLimitQueue.ts` lines 305-309): unshift the retried item back onto
the head of the pending list once its backoff delay has elapsed. -/
def applyRequeue (item : QueueItem) (s : QueueState) : QueueState :=
  { s with items := item :: s.items }

/-- One whole tick of `processNext()` given how the remote call would
settle: the pre-await part, then the matching continuation, then arming
the pacing timer for the next iteration (`rateLimitQueue.ts` line 252)
whenever an item was actually dispatched. -/
def processNextFull (now : Int) (s : QueueState) (outcome : CallOutcome) :
    QueueState × List Effect :=
  match processNextPre now s with
  | (s1, .noDispatch) => (s1, [])
  | (s1, .waitRateLimit waitTime) => (s1, [.armRateLimitTimer waitTime])
  | (s1, .dispatch item) =>
    match outcome with
    | .success snap data =>
      ((resolveSuccess now s1 item snap data).fst,
       [(resolveSuccess now s1 item snap data).snd,
        .armProcessingTimer PROCESSING_DELAY])
    | .failure msg snap =>
      ((resolveFailure now s1 item msg snap).fst,
       [(resolveFailure now s1 item msg snap).snd,
        .armProcessingTimer PROCESSING_DELAY])

/-- `retryFailedItem` mutates only the first item matching the id
(`Array.prototype.find` semantics): reset `retryCount` to 0 and clear
`lastAttempt`, leaving the position of the item unchanged. -/
def resetFirstMatch (requestId : String) : List QueueItem → List QueueItem
  | [] => []
  | it :: rest =>
    if it.request.id = requestId then
      { it with retryCount := 0, lastAttempt := none } :: rest
    else it :: resetFirstMatch requestId rest

/-- `retryFailedItem(requestId)` (`rateLimitQueue.ts` lines 163-173):
find the first pending item with this id; if found, zero its retry count,
clear its last attempt, and call `startProcessing` when the queue is not
already processing.  The `Bool` records whether a dispatch loop was
initiated.  When no pending item matches, nothing happens. -/
def retryFailedItem (now : Int) (requestId : String) (s : QueueState) :
    QueueState × Bool :=
  if s.items.any (fun it => it.request.id = requestId) then
    let s := { s with items := resetFirstMatch requestId s.items }
    if !s.isProcessing then startProcessing now s
    else (s, false)
  else (s, false)

/-- A serialized queue item as written by `saveToStorage`
(`rateLimitQueue.ts` lines 388-403): the request with its `File` object
replaced by the payload-less `{name, size, type}` record. -/
structure SerializedItem where
  id : String
  filename : String
  videoFile : FileMeta
  analysisOptions : AnalysisOptions
  createdAt : Int
  retryCount : Nat
  maxRetries : Nat
  lastAttempt : Option Int
deriving DecidableEq, Repr

/-- The record persisted under the `video-analysis-queue` storage key.
`rateLimitInfo` and `statistics` are `Option`s because `loadFromStorage`
guards each with a truthiness test before restoring it. -/
structure StoredState where
  items : List SerializedItem
  isProcessing : Bool
  isPaused : Bool
  rateLimitInfo : Option RateLimitInfo
  statistics : Option Statistics
deriving DecidableEq, Repr

/-- `saveToStorage()` (`rateLimitQueue.ts` lines 386-409): serialize the
whole state, mapping the `File` handle of each item to its metadata (the
binary `content` is lost). -/
def saveToStorage (s : QueueState) : StoredState :=
  { items := s.items.map (fun it =>
      { id := it.request.id
        filename := it.request.filename
        videoFile :=
          { name := it.request.videoFile.name
            size := it.request.videoFile.size
            type := it.request.videoFile.type }
        analysisOptions := it.request.analysisOptions
        createdAt := it.request.createdAt
        retryCount := it.retryCount
        maxRetries := it.maxRetries
        lastAttempt := it.lastAttempt })
    isProcessing := s.isProcessing
    isPaused := s.isPaused
    rateLimitInfo := some s.rateLimitInfo
    statistics := some s.statistics }

/-- `loadFromStorage()` (`rateLimitQueue.ts` lines 411-433): when a
stored record parses, restore `rateLimitInfo` and `statistics` (each
guarded only by presence); the pending `items` list is never restored
because `File` objects cannot be serialized.  A missing or unreadable
record leaves the fresh state untouched. -/
def loadFromStorage (s : QueueState) (stored : Option StoredState) : QueueState :=
  match stored with
  | none => s
  | some parsedState =>
    let s :=
      match parsedState.rateLimitInfo with
      | some info => { s with rateLimitInfo := info }
      | none => s
    match parsedState.statistics with
    | some st => { s with statistics := st }
    | none => s

/-- Repeatedly resolve dispatch attempts of one item whose remote call
always fails with message `msg` (no snapshot), following the scheduled
re-enqueues, until the item terminates or the fuel runs out.  Returns the
final state, the number of re-enqueues that were scheduled, and the
terminal result if one was emitted. -/
def runAlwaysFailing (now : Int) (msg : String) :
    Nat → QueueState → QueueItem → Nat →
    QueueState × Nat × Option VideoAnalysisResult
  | 0, s, _, requeues => (s, requeues, none)
  | Nat.succ fuel, s, item, requeues =>
    match resolveFailure now s item msg none with
    | (s1, .scheduleRequeue item1 _) =>
        runAlwaysFailing now msg fuel s1 item1 (requeues + 1)
    | (s1, .emitResult r) => (s1, requeues, some r)
    | (s1, _) => (s1, requeues, none)

/-! ## Server-side sliding-window rate limiter

Embedding of `checkRateLimit` from
`src/app/api/gemini/analyze-video/route.ts` (lines 80-139). -/

/-- `RateLimitData` (`route.ts` lines 9-14); per-request ids are
irrelevant to control flow and are dropped, keeping the timestamps. -/
structure RateLimitData where
  count : Nat
  resetTime : Int
  requests : List Int
  lastCleanup : Int
deriving DecidableEq, Repr

/-- `RATE_LIMIT_WINDOW_MS` constant (`route.ts` line 20). -/
def RATE_LIMIT_WINDOW_MS : Int := 60000

/-- The result record of `checkRateLimit`. -/
structure CheckResult where
  allowed : Bool
  remaining : Int
  resetTime : Int
  requestsInLastMinute : Nat
  retryAfter : Option Int
deriving DecidableEq, Repr

/-- JavaScript `Math.ceil(a / b)` for integer `a` and positive integer
`b`. -/
def ceilDiv (a b : Int) : Int :=
  (a + b - 1).ediv b

/-- The fresh `RateLimitData` installed for an unseen key
(`route.ts` lines 92-99). -/
def freshLimitData (now : Int) : RateLimitData :=
  { count := 0, resetTime := now + RATE_LIMIT_WINDOW_MS, requests := [],
    lastCleanup := now }

/-- `checkRateLimit(ip)` (`route.ts` lines 80-139) for one key: `store`
is the entry of `rateLimitStore` for that key (or `none`), `limit` is
`RATE_LIMIT_PER_MINUTE`, `now` is `Date.now()`.  Returns the response
record and the updated store entry. -/
def checkRateLimit (limit : Nat) (now : Int) (store : Option RateLimitData) :
    CheckResult × RateLimitData :=
  let limitData := store.getD (freshLimitData now)
  let oneMinuteAgo := now - RATE_LIMIT_WINDOW_MS
  let requests := limitData.requests.filter (fun t => oneMinuteAgo < t)
  let count := requests.length
  let resetTime :=
    if limitData.resetTime < now then now + RATE_LIMIT_WINDOW_MS
    else limitData.resetTime
  let d :=
    { limitData with
        requests := requests
        count := count
        resetTime := resetTime }
  if limit ≤ count then
    let retryAfter :=
      match requests with
      | [] => 60
      | oldest :: _ => ceilDiv (oldest + RATE_LIMIT_WINDOW_MS - now) 1000
    ({ allowed := false, remaining := 0, resetTime := resetTime,
       requestsInLastMinute := count, retryAfter := some retryAfter }, d)
  else
    let requests2 := requests ++ [now]
    let d2 := { d with requests := requests2, count := requests2.length }
    ({ allowed := true, remaining := (limit : Int) - requests2.length,
       resetTime := resetTime, requestsInLastMinute := requests2.length,
       retryAfter := none }, d2)

/-- The 429 error message built by the route handler
(`route.ts` POST, rate-limit branch): the server-provided retry-after
value survives only inside this text. -/
def rateLimitErrorMessage (retryAfter : Int) : String :=
  "Rate limit exceeded. Please wait " ++ toString retryAfter ++
    " seconds before making another request."

/-! ## Concrete fixtures

A small concrete scenario used by witnesses and counterexamples: one
request `X` enqueued into a freshly initialized queue (default ceiling
10) and processing started at time 0. -/

/-- All five extraction toggles enabled. -/
def exOptions : AnalysisOptions :=
  { includeVisualHook := true, includeTextHook := true,
    includeVoiceHook := true, includeVideoScript := true,
    includePainPoint := true }

/-- A concrete video file handle. -/
def exFile : FileHandle :=
  { name := "x.mp4", size := 5, type := "video/mp4", content := [1, 2, 3] }

/-- A concrete analysis request with id `X`. -/
def exRequest : VideoAnalysisRequest :=
  { id := "X", filename := "x.mp4", videoFile := exFile,
    analysisOptions := exOptions, createdAt := 0 }

/-- The fresh queue item wrapping `exRequest`. -/
def exItem : QueueItem :=
  { request := exRequest, retryCount := 0, maxRetries := MAX_RETRIES,
    lastAttempt := none }

/-- A concrete successful analysis payload. -/
def exData : ApiAnalysisData :=
  { visualHook := "v", textHook := "t", voiceHook := "vo",
    videoScript := "s", painPoint := "p", processingTime := 7 }

/-- Fresh queue with `exRequest` enqueued. -/
def exQueued : QueueState := addToQueue exRequest (initializeState 10 0)

/-- The queue after `startProcessing` at time 0. -/
def exRunning : QueueState := (startProcessing 0 exQueued).fst

/-- `exItem` as popped by `processNextPre` at time 0 (with `lastAttempt`
marked). -/
def exDispatched : QueueItem := { exItem with lastAttempt := some 0 }

/-- The queue state left behind while the call on `exItem` is in flight. -/
def exInFlight : QueueState := (processNextPre 0 exRunning).fst

/-- The queue after the in-flight call on item `X` fails with a
non-retryable error: `X` has reached terminal failure and is gone from
the pending list. -/
def exTerminal : QueueState :=
  (resolveFailure 0 exInFlight exDispatched "invalid request" none).fst

/-- The queue one tick after the terminal failure: the empty-queue
auto-stop has fired, so the queue is idle. -/
def exIdleAfterTerminal : QueueState := (processNextPre 6000 exTerminal).fst

/-- An idle queue holding item `X` with two failed attempts recorded. -/
def exIdleWithItem : QueueState :=
  { initializeState 10 0 with items := [{ exItem with retryCount := 2 }] }

/-- `exRunning` with a configured ceiling of 30 requests per minute
instead of the default 10. -/
def exRunning30 : QueueState :=
  { exRunning with rateLimitInfo :=
      { remaining := 30, resetTime := 60000, requestsInLastMinute := 0,
        maxRequestsPerMinute := 30 } }

/-- A server-side window record holding one request issued at 50000 ms. -/
def exStoreData : RateLimitData :=
  { count := 1, resetTime := 60000, requests := [50000], lastCleanup := 50000 }

/-- A queue state whose rate-limit snapshot has an already-expired
`resetTime`. -/
def exStale : QueueState :=
  { exRunning with rateLimitInfo :=
      { remaining := 3, resetTime := 0, requestsInLastMinute := 7,
        maxRequestsPerMinute := 10 } }

/-- The locally computed rate-limit bookkeeping equation claimed
invariant by the specification. -/
abbrev rateLimitInv (r : RateLimitInfo) : Prop :=
  r.remaining = max 0 (r.maxRequestsPerMinute - r.requestsInLastMinute)

/-- The in-window timestamps of a store entry at instant `now`: the
record pruned to the trailing window, exactly as `checkRateLimit` prunes
it. -/
def windowRequests (now : Int) (store : Option RateLimitData) : List Int :=
  (store.getD (freshLimitData now)).requests.filter
    (fun t => now - RATE_LIMIT_WINDOW_MS < t)

/-! ## Helper lemmas -/

/-- Applying an authoritative snapshot never touches the statistics. -/
theorem applySnapshot_statistics (s : QueueState) (snap : Option RateLimitInfo) :
    (applySnapshot s snap).statistics = s.statistics := by
  cases snap <;> rfl

/-- Applying an authoritative snapshot never touches the processing flag. -/
theorem applySnapshot_isProcessing (s : QueueState) (snap : Option RateLimitInfo) :
    (applySnapshot s snap).isProcessing = s.isProcessing := by
  cases snap <;> rfl

/-- A match of `needle` at the start of `hay` survives extending `hay`
on the right. -/
theorem startsWithList_append (hay t needle : List Char)
    (hs : startsWithList hay needle = true) :
    startsWithList (hay ++ t) needle = true := by
  induction needle generalizing hay with
  | nil => simp [startsWithList]
  | cons b bs ih =>
    cases hay with
    | nil => simp [startsWithList] at hs
    | cons a as =>
      simp only [startsWithList, Bool.and_eq_true, decide_eq_true_eq] at hs
      simp only [List.cons_append, startsWithList, Bool.and_eq_true,
        decide_eq_true_eq]
      exact ⟨hs.1, ih as hs.2⟩

/-- The empty needle occurs in every haystack. -/
theorem hasSubList_nil (hay : List Char) : hasSubList hay [] = true := by
  cases hay <;> simp [hasSubList, startsWithList]

/-- A substring occurrence survives extending the haystack on the
right. -/
theorem hasSubList_append (x y needle : List Char)
    (hx : hasSubList x needle = true) :
    hasSubList (x ++ y) needle = true := by
  induction x with
  | nil =>
    cases needle with
    | nil => simpa using hasSubList_nil y
    | cons b bs => simp [hasSubList, startsWithList] at hx
  | cons c t ih =>
    simp only [hasSubList, Bool.or_eq_true] at hx
    simp only [List.cons_append, hasSubList, Bool.or_eq_true]
    rcases hx with hs | hrec
    · exact Or.inl (by simpa using startsWithList_append (c :: t) y needle hs)
    · exact Or.inr (ih hrec)

/-- The rate-limit check step either leaves the state alone (reporting a
wait time or nothing) or performs exactly the local window reset. -/
theorem rateLimitGate_cases (now : Int) (s : QueueState) :
    rateLimitGate now s = (s, some (s.rateLimitInfo.resetTime - now))
    ∨ rateLimitGate now s = (s, none)
    ∨ rateLimitGate now s
        = ({ s with rateLimitInfo :=
              { s.rateLimitInfo with
                  remaining := s.rateLimitInfo.maxRequestsPerMinute
                  resetTime := now + 60000
                  requestsInLastMinute := 0 } }, none) := by
  unfold rateLimitGate
  split
  · split
    · exact Or.inl rfl
    · exact Or.inr (Or.inr rfl)
  · exact Or.inr (Or.inl rfl)

/-- One pre-await step leaves the rate-limit record unchanged unless it
performs the local window reset. -/
theorem processNextPre_rateLimitInfo (now : Int) (s : QueueState) :
    (processNextPre now s).fst.rateLimitInfo = s.rateLimitInfo
    ∨ (processNextPre now s).fst.rateLimitInfo
        = { s.rateLimitInfo with
              remaining := s.rateLimitInfo.maxRequestsPerMinute
              resetTime := now + 60000
              requestsInLastMinute := 0 } := by
  unfold processNextPre
  split
  · split
    · exact Or.inl rfl
    · exact Or.inl rfl
  · rcases rateLimitGate_cases now s with hg | hg | hg
    · simp [hg]
    · cases hi : s.items with
      | nil => simp [hg, hi]
      | cons a rest => simp [hg, hi]
    · cases hi : s.items with
      | nil => simp [hg, hi]
      | cons a rest => simp [hg, hi]

/-- The 429 message of the route is always classified retryable by the
queue, whatever retry-after value it embeds: the keyword `rate limit`
sits in its constant head. -/
theorem isRetryable_rateLimitMessage (ra : Int) :
    isRetryableError (rateLimitErrorMessage ra) = true := by
  unfold isRetryableError
  apply List.any_eq_true.mpr
  refine ⟨"rate limit", by simp [retryableErrors], ?_⟩
  have hsplit : lowerStr (rateLimitErrorMessage ra)
      = lowerStr "Rate limit exceeded. Please wait "
        ++ (lowerStr (toString ra)
            ++ lowerStr " seconds before making another request.") := by
    simp [rateLimitErrorMessage, lowerStr]
  rw [hsplit]
  exact hasSubList_append _ _ _ (by decide)

/-! ## Claim theorems -/

/-- C10: calling `startProcessing` while the queue is already processing
is a no-op — the state (items, flags, statistics, including the recorded
`startTime`) is returned unchanged and no additional dispatch loop is
initiated. -/
theorem startProcessing_idempotent_on_running (now : Int) (s : QueueState)
    (h : s.isProcessing = true) :
    startProcessing now s = (s, false) := by
  simp [startProcessing, h]

/-- C10 witness: `startProcessing` at time 99 on the concrete running
queue leaves it untouched and starts no loop. -/
theorem startProcessing_idempotent_on_running_witness :
    startProcessing 99 exRunning = (exRunning, false) :=
  startProcessing_idempotent_on_running 99 exRunning (by decide)

/-- C9: the failure continuation of one dispatch-loop tick is total and
converts every failing remote call into exactly one of the two permitted
outcomes: a deferred head re-enqueue with exponential backoff (retry
count bumped, statistics untouched), or a terminal error result with
`status = error` and the error counter incremented.  No failure path
escapes. -/
theorem dispatch_failure_dichotomy (now : Int) (s : QueueState)
    (item : QueueItem) (msg : String) (snap : Option RateLimitInfo) :
    ((resolveFailure now s item msg snap).snd
        = .scheduleRequeue { item with retryCount := item.retryCount + 1 }
            (RETRY_BACKOFF_BASE * 2 ^ item.retryCount)
      ∧ (resolveFailure now s item msg snap).fst.statistics = s.statistics)
    ∨ (∃ r, (resolveFailure now s item msg snap).snd = .emitResult r
        ∧ r.status = .error ∧ r.error = some msg
        ∧ (resolveFailure now s item msg snap).fst.statistics.errorCount
            = s.statistics.errorCount + 1) := by
  unfold resolveFailure handleProcessingError
  by_cases hc : (isRetryableError msg
      && decide (item.retryCount + 1 < item.maxRetries)) = true
  · left
    simp [hc, applySnapshot_statistics]
  · right
    refine ⟨{ id := item.request.id, filename := item.request.filename,
              status := .error, error := some msg,
              createdAt := item.request.createdAt,
              completedAt := some now }, ?_, rfl, rfl, ?_⟩ <;>
      simp [hc, applySnapshot_statistics]

/-- C4, part of the bookkeeping invariant: the equation
`remaining = max 0 (maxRequestsPerMinute - requestsInLastMinute)` holds
after initialization, is preserved by the local window reset inside
`processNextPre` (for a nonnegative configured ceiling), and is
preserved by the local decrement of the success continuation when no
authoritative snapshot arrived; the snapshot path replaces the record
wholesale via `applySnapshot`. -/
theorem rateLimit_local_invariant :
    (∀ (defaultLimit : Nat) (now : Int),
        rateLimitInv (initializeState defaultLimit now).rateLimitInfo)
    ∧ (∀ (now : Int) (s : QueueState),
        rateLimitInv s.rateLimitInfo →
        0 ≤ s.rateLimitInfo.maxRequestsPerMinute →
        rateLimitInv (processNextPre now s).fst.rateLimitInfo)
    ∧ (∀ (now : Int) (s : QueueState) (item : QueueItem)
        (data : ApiAnalysisData),
        rateLimitInv s.rateLimitInfo →
        rateLimitInv (resolveSuccess now s item none data).fst.rateLimitInfo) := by
  refine ⟨?_, ?_, ?_⟩
  · intro defaultLimit now
    simp [initializeState, rateLimitInv]
  · intro now s hinv hmax
    rcases processNextPre_rateLimitInfo now s with h | h <;> rw [h]
    · exact hinv
    · simp only [rateLimitInv] at hinv ⊢
      omega
  · intro now s item data hinv
    simp only [resolveSuccess, applySnapshot, rateLimitInv] at hinv ⊢
    omega

/-- C4 witness: the invariant holds concretely after a success of the
running fixture queue with no snapshot. -/
theorem rateLimit_local_invariant_witness :
    rateLimitInv (resolveSuccess 0 exRunning exItem none exData).fst.rateLimitInfo :=
  rateLimit_local_invariant.2.2 0 exRunning exItem exData (by decide)

/-- C1 counterexample: dispatch item `X` at time 0, call `stopProcessing`
while the call is in flight, then let the call resolve successfully at
time 5.  The completed count moves from 0 to 1 and the result is
emitted, so the resolution is not a no-op against the stopped queue. -/
theorem stop_discards_inflight_counterexample :
    (processNextPre 0 exRunning).snd = .dispatch exDispatched
    ∧ (getQueueStatus (stopProcessing exInFlight)).completedCount = 0
    ∧ (getQueueStatus
        (resolveSuccess 5 (stopProcessing exInFlight) exDispatched none
          exData).fst).completedCount = 1
    ∧ (∃ r, (resolveSuccess 5 (stopProcessing exInFlight) exDispatched none
          exData).snd = Effect.emitResult r) := by
  refine ⟨by decide, by decide, by decide,
    ⟨{ id := "X", filename := "x.mp4", status := .completed,
       visualHook := some "v", textHook := some "t", voiceHook := some "vo",
       videoScript := some "s", painPoint := some "p",
       processingTime := some 7, error := none, createdAt := 0,
       completedAt := some 5 }, ?_⟩⟩
  decide

/-- C1 amended: when an in-flight call resolves against a stopped queue,
its result IS still applied and emitted — the success counter (the
`completedCount` of the status view) increments and the completed result
is emitted — but the queue does not re-enter the running state: the
processing flag stays false and the next loop tick changes nothing and
dispatches nothing. -/
theorem stop_inflight_result_still_applied (now m : Int) (s : QueueState)
    (item : QueueItem) (snap : Option RateLimitInfo) (data : ApiAnalysisData)
    (h : s.isProcessing = false) :
    (getQueueStatus (resolveSuccess now s item snap data).fst).completedCount
        = (getQueueStatus s).completedCount + 1
    ∧ (∃ r, (resolveSuccess now s item snap data).snd = Effect.emitResult r
        ∧ r.status = .completed)
    ∧ (resolveSuccess now s item snap data).fst.isProcessing = false
    ∧ processNextPre m (resolveSuccess now s item snap data).fst
        = ((resolveSuccess now s item snap data).fst, .noDispatch) := by
  refine ⟨?_, ⟨_, rfl, rfl⟩, ?_, ?_⟩
  · cases snap <;> simp [resolveSuccess, applySnapshot, getQueueStatus]
  · cases snap <;> simp [resolveSuccess, applySnapshot, h]
  · have hp : (resolveSuccess now s item snap data).fst.isProcessing = false := by
      cases snap <;> simp [resolveSuccess, applySnapshot, h]
    unfold processNextPre
    rw [if_pos (by simp [hp])]
    rw [if_neg (by simp [hp])]

/-- C1 witness: the concrete stopped-queue instance of the amended
theorem. -/
theorem stop_inflight_result_still_applied_witness :
    (resolveSuccess 5 (stopProcessing exInFlight) exDispatched none
        exData).fst.isProcessing = false :=
  (stop_inflight_result_still_applied 5 11 (stopProcessing exInFlight)
    exDispatched none exData (by decide)).2.2.1

/-- C5 counterexample: save a queue whose rate-limit snapshot has
`resetTime = 0`, then load it into a fresh scheduler at time 999999 —
the snapshot is restored even though its `resetTime` has long passed,
so the restore is not guarded by expiry. -/
theorem load_ignores_expiry_counterexample :
    (loadFromStorage (initializeState 10 999999)
        (some (saveToStorage exStale))).rateLimitInfo = exStale.rateLimitInfo
    ∧ exStale.rateLimitInfo.resetTime < 999999
    ∧ (loadFromStorage (initializeState 10 999999)
        (some (saveToStorage exStale))).rateLimitInfo
        ≠ (initializeState 10 999999).rateLimitInfo := by
  decide

/-- C5 amended: loading saved queue metadata into a fresh scheduler
restores the saved statistics and rate-limit snapshot unconditionally —
no expiry check on `resetTime` is performed — and restores zero pending
items in every case (no payload-less item is ever re-created). -/
theorem persistence_roundtrip_amended (s : QueueState) (defaultLimit : Nat)
    (now : Int) :
    (loadFromStorage (initializeState defaultLimit now)
        (some (saveToStorage s))).statistics = s.statistics
    ∧ (loadFromStorage (initializeState defaultLimit now)
        (some (saveToStorage s))).rateLimitInfo = s.rateLimitInfo
    ∧ (loadFromStorage (initializeState defaultLimit now)
        (some (saveToStorage s))).items = [] := by
  refine ⟨rfl, rfl, rfl⟩

/-- C8 counterexample: with a configured ceiling of 30 requests per
minute, one tick still arms the pacing timer with the fixed 6000 ms
constant — not `max (60/30) 1 = 2` seconds as the claim requires. -/
theorem pacing_delay_counterexample :
    exRunning30.rateLimitInfo.maxRequestsPerMinute = 30
    ∧ Effect.armProcessingTimer 6000
        ∈ (processNextFull 0 exRunning30 (.success none exData)).snd
    ∧ Effect.armProcessingTimer (max (60 / 30) 1 * 1000)
        ∉ (processNextFull 0 exRunning30 (.success none exData)).snd
    ∧ (6000 : Int) ≠ max (60 / 30) 1 * 1000 := by
  decide

/-- C8 amended: after every dispatch attempt the scheduler arms the next
loop iteration with the fixed constant `PROCESSING_DELAY = 6000` ms (6
seconds, matching `60/ceiling` only for the default ceiling of 10); the
delay does not vary with the configured per-minute ceiling. -/
theorem pacing_delay_fixed (now : Int) (s : QueueState) (o : CallOutcome)
    (item : QueueItem)
    (h : (processNextPre now s).snd = DispatchAction.dispatch item) :
    Effect.armProcessingTimer PROCESSING_DELAY
        ∈ (processNextFull now s o).snd
    ∧ PROCESSING_DELAY = 6000 := by
  refine ⟨?_, rfl⟩
  unfold processNextFull
  rcases hp : processNextPre now s with ⟨s1, act⟩
  rw [hp] at h
  cases act with
  | noDispatch => cases h
  | waitRateLimit w => cases h
  | dispatch it => cases o <;> simp

/-- C8 witness: the concrete running fixture dispatches `X` and arms the
6-second pacing timer. -/
theorem pacing_delay_fixed_witness :
    Effect.armProcessingTimer PROCESSING_DELAY
      ∈ (processNextFull 0 exRunning (.success none exData)).snd :=
  (pacing_delay_fixed 0 exRunning (.success none exData) exDispatched
    (by decide)).1

/-- C6 counterexample: a 429 failure whose message carries the server
retry-after value 30 seconds, hitting a fresh item with full retry
budget, schedules the generic 2000 ms backoff — not 30000 ms. -/
theorem server_retry_after_ignored_counterexample :
    (resolveFailure 0 exRunning exItem (rateLimitErrorMessage 30) none).snd
      = Effect.scheduleRequeue { exItem with retryCount := 1 } 2000
    ∧ (2000 : Int) ≠ 30 * 1000 := by
  decide

/-- C6 amended: when a dispatch fails with the rate-limit error of the
route (which embeds the server retry-after value only in its message
text) and the item still has retry budget, the scheduled delay is always
the generic exponential backoff `RETRY_BACKOFF_BASE * 2^(retryCount)`,
independent of the embedded server value. -/
theorem rate_limit_backoff_generic (now retryAfterSeconds : Int)
    (s : QueueState) (item : QueueItem)
    (h : item.retryCount + 1 < item.maxRetries) :
    resolveFailure now s item (rateLimitErrorMessage retryAfterSeconds) none
      = (s, Effect.scheduleRequeue
            { item with retryCount := item.retryCount + 1 }
            (RETRY_BACKOFF_BASE * 2 ^ item.retryCount)) := by
  have hr := isRetryable_rateLimitMessage retryAfterSeconds
  simp [resolveFailure, applySnapshot, handleProcessingError, hr, h]

/-- C6 witness: the concrete fresh item with server retry-after 45
receives the 2000 ms generic backoff. -/
theorem rate_limit_backoff_generic_witness :
    resolveFailure 0 exRunning exItem (rateLimitErrorMessage 45) none
      = (exRunning, Effect.scheduleRequeue { exItem with retryCount := 1 }
          (RETRY_BACKOFF_BASE * 2 ^ (0 : Nat))) :=
  rate_limit_backoff_generic 0 45 exRunning exItem (by decide)

/-- C7 counterexample: item `X` reaches terminal failure (error counted,
gone from the pending list, queue auto-stopped at the next tick); the
explicit retry of `X` is then a complete no-op — nothing is re-enqueued
and processing does not begin. -/
theorem retryFailedItem_terminal_counterexample :
    exTerminal.statistics.errorCount = 1
    ∧ exTerminal.items = []
    ∧ exIdleAfterTerminal.isProcessing = false
    ∧ retryFailedItem 10 "X" exIdleAfterTerminal = (exIdleAfterTerminal, false)
    ∧ (retryFailedItem 10 "X" exIdleAfterTerminal).fst.items = [] := by
  decide

/-- Resetting the first id match leaves a pending item with that id at
retry count zero and no recorded attempt. -/
theorem resetFirstMatch_find (requestId : String) (l : List QueueItem)
    (h : l.any (fun it => it.request.id = requestId) = true) :
    ∃ it, (resetFirstMatch requestId l).find?
        (fun i => i.request.id = requestId) = some it
      ∧ it.retryCount = 0 ∧ it.lastAttempt = none := by
  induction l with
  | nil => simp at h
  | cons a rest ih =>
    by_cases ha : a.request.id = requestId
    · exact ⟨{ a with retryCount := 0, lastAttempt := none },
        by simp [resetFirstMatch, ha, List.find?], rfl, rfl⟩
    · simp only [List.any_cons, Bool.or_eq_true, decide_eq_true_eq] at h
      rcases h with h | h
      · exact absurd h ha
      · obtain ⟨it, hfind, h0, hla⟩ := ih h
        exact ⟨it, by simp [resetFirstMatch, ha, List.find?, hfind], h0, hla⟩

/-- C7 amended: an explicit retry reset by id resets the first matching
PENDING item to `retryCount = 0` (clearing its last attempt) and begins
processing if the queue was idle; when no pending item carries the id —
in particular for an item that reached terminal failure and left the
pending list — it is a no-op and re-creates nothing. -/
theorem retryFailedItem_amended (now : Int) (requestId : String)
    (s : QueueState) :
    (s.items.any (fun it => it.request.id = requestId) = false →
        retryFailedItem now requestId s = (s, false))
    ∧ (s.items.any (fun it => it.request.id = requestId) = true →
        (∃ it, (retryFailedItem now requestId s).fst.items.find?
              (fun i => i.request.id = requestId) = some it
            ∧ it.retryCount = 0 ∧ it.lastAttempt = none)
        ∧ (s.isProcessing = false →
            (retryFailedItem now requestId s).fst.isProcessing = true
            ∧ (retryFailedItem now requestId s).snd = true)) := by
  constructor
  · intro h
    simp [retryFailedItem, h]
  · intro h
    constructor
    · have hitems : (retryFailedItem now requestId s).fst.items
          = resetFirstMatch requestId s.items := by
        by_cases hp : s.isProcessing = true <;>
          simp [retryFailedItem, h, hp, startProcessing]
      rw [hitems]
      exact resetFirstMatch_find requestId s.items h
    · intro hidle
      constructor <;> simp [retryFailedItem, h, hidle, startProcessing]

/-- C7 witness: retrying item `X` sitting idle in the pending list with
two failed attempts restarts processing. -/
theorem retryFailedItem_amended_witness :
    (retryFailedItem 10 "X" exIdleWithItem).fst.isProcessing = true :=
  (((retryFailedItem_amended 10 "X" exIdleWithItem).2 (by decide)).2
    (by decide)).1

/-- C2 counterexample: a fresh item whose call always fails with the
retryable message `network error` is re-enqueued only twice — not
`MAX_RETRIES = 3` times — before terminating as a `status = error`
result. -/
theorem retry_bounded_counterexample :
    MAX_RETRIES = 3
    ∧ (runAlwaysFailing 0 "network error" 10 exRunning exItem 0).2.1 = 2
    ∧ (runAlwaysFailing 0 "network error" 10 exRunning exItem 0).2.1
        ≠ MAX_RETRIES
    ∧ ((runAlwaysFailing 0 "network error" 10 exRunning exItem 0).2.2.map
        (fun r => r.status)) = some .error := by
  decide

/-- Step lemma: a retryable failure with remaining budget consumes one
fuel, bumps the retry count, and counts one more scheduled re-enqueue. -/
theorem runAlwaysFailing_step (now : Int) (msg : String) (fuel : Nat)
    (s : QueueState) (item : QueueItem) (requeues : Nat)
    (hm : isRetryableError msg = true)
    (hk : item.retryCount + 1 < item.maxRetries) :
    runAlwaysFailing now msg (fuel + 1) s item requeues
      = runAlwaysFailing now msg fuel s
          { item with retryCount := item.retryCount + 1 } (requeues + 1) := by
  simp [runAlwaysFailing, resolveFailure, applySnapshot,
    handleProcessingError, hm, hk]

/-- Step lemma: once the bumped retry count reaches the ceiling, the run
terminates with the error result and error statistics. -/
theorem runAlwaysFailing_terminal (now : Int) (msg : String) (fuel : Nat)
    (s : QueueState) (item : QueueItem) (requeues : Nat)
    (hk : ¬ item.retryCount + 1 < item.maxRetries) :
    runAlwaysFailing now msg (fuel + 1) s item requeues
      = ({ s with statistics :=
            { s.statistics with
                errorCount := s.statistics.errorCount + 1
                totalProcessed := s.statistics.totalProcessed + 1 } },
         requeues,
         some { id := item.request.id, filename := item.request.filename,
                status := .error, error := some msg,
                createdAt := item.request.createdAt,
                completedAt := some now }) := by
  simp [runAlwaysFailing, resolveFailure, applySnapshot,
    handleProcessingError, hk]

/-- C2 amended: a fresh work item whose remote call always fails with a
retryable error is dispatched `MAX_RETRIES` times in total — that is,
re-enqueued (retried) exactly `MAX_RETRIES - 1 = 2` times — and then
terminates by emitting an `AnalysisResult` with `status = error` and
incrementing `errorCount`. -/
theorem retry_bounded_amended (now : Int) (s : QueueState)
    (req : VideoAnalysisRequest) (msg : String)
    (hm : isRetryableError msg = true) :
    (runAlwaysFailing now msg (MAX_RETRIES + 1) s
        { request := req, retryCount := 0, maxRetries := MAX_RETRIES,
          lastAttempt := none } 0).2.1 = MAX_RETRIES - 1
    ∧ ((runAlwaysFailing now msg (MAX_RETRIES + 1) s
        { request := req, retryCount := 0, maxRetries := MAX_RETRIES,
          lastAttempt := none } 0).2.2.map (fun r => r.status))
        = some .error
    ∧ (runAlwaysFailing now msg (MAX_RETRIES + 1) s
        { request := req, retryCount := 0, maxRetries := MAX_RETRIES,
          lastAttempt := none } 0).1.statistics.errorCount
        = s.statistics.errorCount + 1 := by
  have h1 := runAlwaysFailing_step now msg 3 s
    { request := req, retryCount := 0, maxRetries := MAX_RETRIES,
      lastAttempt := none } 0 hm (by simp [MAX_RETRIES])
  have h2 := runAlwaysFailing_step now msg 2 s
    { request := req, retryCount := 1, maxRetries := MAX_RETRIES,
      lastAttempt := none } 1 hm (by simp [MAX_RETRIES])
  have h3 := runAlwaysFailing_terminal now msg 1 s
    { request := req, retryCount := 2, maxRetries := MAX_RETRIES,
      lastAttempt := none } 2 (by simp [MAX_RETRIES])
  simp only [MAX_RETRIES] at h1 h2 h3 ⊢
  norm_num at h1 h2 h3 ⊢
  rw [h1, h2, h3]
  simp

/-- C2 witness: the concrete always-failing run on the fixture queue
ends with the error counter incremented. -/
theorem retry_bounded_amended_witness :
    (runAlwaysFailing 0 "network error" (MAX_RETRIES + 1) exRunning
        { request := exRequest, retryCount := 0, maxRetries := MAX_RETRIES,
          lastAttempt := none } 0).1.statistics.errorCount
      = exRunning.statistics.errorCount + 1 :=
  (retry_bounded_amended 0 exRunning exRequest "network error"
    (by decide)).2.2

/-- C3: for every permission check at a controlled timestamp against any
window record, the check is denied exactly when the count of recorded
timestamps still inside the trailing 60-second window reaches the
per-minute ceiling; when denied, `retryAfter` is the (ceiling-rounded)
time in seconds until the oldest in-window timestamp ages out, never
negative, and defaults to the full window length of 60 seconds when the
pruned window record is empty. -/
theorem checkRateLimit_sliding_window (limit : Nat) (now : Int)
    (store : Option RateLimitData) :
    ((checkRateLimit limit now store).fst.allowed = false
        ↔ limit ≤ (windowRequests now store).length)
    ∧ ((checkRateLimit limit now store).fst.allowed = false →
        (checkRateLimit limit now store).fst.retryAfter
          = some (match windowRequests now store with
              | [] => (60 : Int)
              | oldest :: _ =>
                  ceilDiv (oldest + RATE_LIMIT_WINDOW_MS - now) 1000))
    ∧ (∀ ra, (checkRateLimit limit now store).fst.retryAfter = some ra →
        0 ≤ ra) := by
  simp only [checkRateLimit, windowRequests]
  rcases hfl : (store.getD (freshLimitData now)).requests.filter
      (fun t => now - RATE_LIMIT_WINDOW_MS < t) with _ | ⟨o, rest⟩
  · simp only [hfl, List.length_nil]
    by_cases hc : limit ≤ 0
    · simp [hc]
    · simp [hc]
  · have ho : now - RATE_LIMIT_WINDOW_MS < o := by
      have : o ∈ (store.getD (freshLimitData now)).requests.filter
          (fun t => now - RATE_LIMIT_WINDOW_MS < t) := by
        rw [hfl]
        exact List.mem_cons_self o rest
      simpa using (List.mem_filter.mp this).2
    simp only [hfl, List.length_cons]
    by_cases hc : limit ≤ rest.length + 1
    · refine ⟨by simp [hc], by simp [hc], ?_⟩
      intro ra hra
      simp [hc] at hra
      subst hra
      unfold ceilDiv
      refine Int.ediv_nonneg ?_ (by norm_num)
      simp only [RATE_LIMIT_WINDOW_MS] at ho ⊢
      omega
    · refine ⟨by simp [hc], by simp [hc], ?_⟩
      intro ra hra
      simp [hc] at hra

/-- C3 witness: ceiling 1, one request recorded at 50000 ms, checked at
60000 ms — denied with a nonnegative retry-after (concretely 50 s). -/
theorem checkRateLimit_sliding_window_witness : (0 : Int) ≤ 50 :=
  (checkRateLimit_sliding_window 1 60000 (some exStoreData)).2.2 50
    (by decide)

end VideoGacho
